import Mathlib

/-!
Verification of the CourseEnrollment front end: a shallow embedding of the
theme utility module (themeClass, getCssVar, setCssVar, systemPrefersDarkMode,
addColorSchemeListener) and of the CoursePlayer view model (static lesson
catalog, active-lesson resolution, not-found rendering, comment posting and
completion toggling), with theorems settling the specification claims.
-/

set_option autoImplicit false

namespace CourseEnrollment

/-! ### Theme utility module (theme utils source file) -/

/-- JavaScript values relevant to the theme utilities: `undefined` and booleans.
`window.matchMedia && window.matchMedia(q).matches` can evaluate to either. -/
inductive JSValue where
  | undef : JSValue
  | bool (b : Bool) : JSValue
deriving DecidableEq, Repr

/-- JavaScript truthiness restricted to the values above:
`undefined` is falsy, a boolean is its own truth value. -/
def jsTruthy : JSValue → Bool
  | .undef => false
  | .bool b => b

/-- A `MediaQueryList` as returned by `window.matchMedia`, reduced to the
`matches` flag the source reads (`matches` is a Lean keyword, hence the
field name `mqMatches`). -/
structure MediaQueryList where
  mqMatches : Bool

/-- The host `window`, reduced to the optional `matchMedia` facility.
`matchMedia = none` models an environment without media-query support. -/
structure HostWindow where
  matchMedia : Option (String → MediaQueryList)

/-- The ECMAScript WhiteSpace and LineTerminator characters stripped by
`String.prototype.trim`. -/
def jsWhitespace (c : Char) : Bool :=
  c = ' ' || c = '\t' || c = '\n' || c = '\r' ||
  c.toNat = 0x0b || c.toNat = 0x0c ||
  c.toNat = 0xa0 || c.toNat = 0xfeff ||
  c.toNat = 0x1680 || (0x2000 ≤ c.toNat && c.toNat ≤ 0x200a) ||
  c.toNat = 0x2028 || c.toNat = 0x2029 || c.toNat = 0x202f || c.toNat = 0x205f || c.toNat = 0x3000

/-- JavaScript `s.trim()`: strips leading and trailing whitespace. -/
def jsTrim (s : String) : String :=
  String.mk (((s.data.dropWhile jsWhitespace).reverse.dropWhile jsWhitespace).reverse)

/-- `themeClass(theme, lightClass, darkClass)`:
`theme === 'dark' ? darkClass : lightClass`. -/
def themeClass (theme lightClass darkClass : String) : String :=
  if theme = "dark" then darkClass else lightClass

/-- The document-root custom-property store, modeled (as the spec directs)
as an injected key-value map from full property name to raw value. -/
def CssStore : Type := String → String

/-- `getCssVar(name)`: reads property `--name` from the store and trims it,
per `getComputedStyle(document.documentElement).getPropertyValue(...).trim()`. -/
def getCssVar (store : CssStore) (name : String) : String :=
  jsTrim (store ("--" ++ name))

/-- `setCssVar(name, value)`: writes `--name = value` on the store, per
`document.documentElement.style.setProperty(...)`. -/
def setCssVar (store : CssStore) (name value : String) : CssStore :=
  fun key => if key = "--" ++ name then value else store key

/-- `systemPrefersDarkMode()`:
`return window.matchMedia && window.matchMedia('(prefers-color-scheme: dark)').matches`.
When `window.matchMedia` is absent, the JavaScript `&&` short-circuits and the
function returns the falsy left operand itself, i.e. `undefined`, not `false`. -/
def systemPrefersDarkMode (w : HostWindow) : JSValue :=
  match w.matchMedia with
  | none => JSValue.undef
  | some mm => JSValue.bool (mm "(prefers-color-scheme: dark)").mqMatches

/-! ### addColorSchemeListener: listener registry and event trace -/

/-- The listener registry of the media query object targeted by
`addColorSchemeListener`. Listeners are identified by the identity of the
`listener` closure created at registration (one fresh id per call); both the
modern (`addEventListener`) and the legacy (`addListener`) path register into
the same registry. -/
structure MQListeners where
  listeners : List Nat
deriving DecidableEq, Repr

/-- The registration step of `addColorSchemeListener`: branch on whether the
host offers `addEventListener` (modern) or only `addListener` (legacy); either
call appends the fresh listener to the registry. -/
def registerSchemeListener (modern : Bool) (st : MQListeners) (id : Nat) : MQListeners :=
  if modern then { st with listeners := st.listeners ++ [id] }
  else { st with listeners := st.listeners ++ [id] }

/-- The returned de-registration function: branch on whether the host offers
`removeEventListener` (modern) or only `removeListener` (legacy); either call
removes (the first occurrence of) that same listener from the registry. -/
def deregisterSchemeListener (modern : Bool) (st : MQListeners) (id : Nat) : MQListeners :=
  if modern then { st with listeners := st.listeners.erase id }
  else { st with listeners := st.listeners.erase id }

/-- The operations observable at the media-query interface: a registration,
a de-registration (each through either API path), or an OS-reported
color-scheme change event. -/
inductive SchemeOp where
  | register (modern : Bool) (id : Nat) : SchemeOp
  | deregister (modern : Bool) (id : Nat) : SchemeOp
  | schemeChange (m : Bool) : SchemeOp
deriving DecidableEq, Repr

/-- State transition for one operation: registrations and de-registrations
update the registry; a change event leaves it unchanged. -/
def schemeStep (st : MQListeners) : SchemeOp → MQListeners
  | .register modern id => registerSchemeListener modern st id
  | .deregister modern id => deregisterSchemeListener modern st id
  | .schemeChange _ => st

/-- The listeners invoked by one operation: a change event invokes every
currently registered listener (each receives `e.matches`); the other
operations invoke none. -/
def invokedBy (st : MQListeners) : SchemeOp → List Nat
  | .schemeChange _ => st.listeners
  | _ => []

/-- Run a trace of operations, returning the final registry state. -/
def runSchemeOps (st : MQListeners) : List SchemeOp → MQListeners
  | [] => st
  | op :: ops => runSchemeOps (schemeStep st op) ops

/-- All listener invocations produced along a trace of operations. -/
def allInvoked (st : MQListeners) : List SchemeOp → List Nat
  | [] => []
  | op :: ops => invokedBy st op ++ allInvoked (schemeStep st op) ops

/-! ### CoursePlayer view model (src/src/pages/dashboard/CoursePlayer.jsx) -/

/-- A downloadable lesson resource: `{ name, url, type }`. -/
structure Resource where
  name : String
  url : String
  type : String
deriving DecidableEq, Repr

/-- A lesson record from the static catalog:
`{ id, title, videoUrl, duration, isCompleted, resources }`. -/
structure Lesson where
  id : String
  title : String
  videoUrl : String
  duration : String
  isCompleted : Bool
  resources : List Resource
deriving DecidableEq, Repr

/-- The `web-dev-101` lesson list of the static `courseLessons` catalog. -/
def webDev101Lessons : List Lesson :=
  [ { id := "lesson-1", title := "Introduction to Web Development",
      videoUrl := "https://www.youtube.com/embed/pQN-pnXPaVg",
      duration := "15:30", isCompleted := true,
      resources :=
        [ { name := "Lesson Slides", url := "#", type := "pdf" },
          { name := "Exercise Files", url := "#", type := "zip" } ] },
    { id := "lesson-2", title := "HTML Basics",
      videoUrl := "https://www.youtube.com/embed/qz0aGYrrlhU",
      duration := "20:00", isCompleted := false,
      resources := [ { name := "HTML Cheat Sheet", url := "#", type := "pdf" } ] },
    { id := "lesson-3", title := "CSS Styling",
      videoUrl := "https://www.youtube.com/embed/1PnVor36_40",
      duration := "25:10", isCompleted := false,
      resources := [] } ]

/-- The `javascript-basics` lesson list of the static `courseLessons` catalog. -/
def javascriptBasicsLessons : List Lesson :=
  [ { id := "js-lesson-1", title := "JavaScript Introduction",
      videoUrl := "https://www.youtube.com/embed/W6NZfCO5SIk",
      duration := "18:45", isCompleted := false,
      resources := [ { name := "JavaScript Cheatsheet", url := "#", type := "pdf" } ] },
    { id := "js-lesson-2", title := "Variables and Data Types",
      videoUrl := "https://www.youtube.com/embed/hdI2bqOjy3c",
      duration := "22:15", isCompleted := false,
      resources := [] } ]

/-- The static `courseLessons` object: course id → lesson list. -/
def courseLessons : List (String × List Lesson) :=
  [ ("web-dev-101", webDev101Lessons),
    ("javascript-basics", javascriptBasicsLessons) ]

/-- Property access `courseLessons[courseId]`: `undefined` (`none`) when the
key is absent. -/
def lookupCourse (courseId : String) : Option (List Lesson) :=
  courseLessons.lookup courseId

/-- The `useEffect` resolution of the active lesson:
`lessonId ? lessons.find(lesson => lesson.id === lessonId) : lessons[0]`.
`lessonId` is a URL parameter, so it is `undefined` (`none`) or a string; a
missing or empty string is falsy and selects the first lesson. -/
def resolveInitialLesson (lessons : List Lesson) (lessonId : Option String) : Option Lesson :=
  match lessonId with
  | some lid => if lid = "" then lessons.head? else lessons.find? (fun lesson => lesson.id = lid)
  | none => lessons.head?

/-- The three terminal render outcomes of `CoursePlayer` once the effect has
settled: the Course Not Found view, the Lesson Not Found view, or the player
showing the resolved active lesson. -/
inductive PlayerView where
  | courseNotFound : PlayerView
  | lessonNotFound : PlayerView
  | player (lesson : Lesson) : PlayerView
deriving DecidableEq, Repr

/-- The settled render of `CoursePlayer` for given navigation parameters:
`if (!courseId || !courseLessons[courseId])` renders Course Not Found;
`if (!activeLesson)` (the effect resolved no lesson) renders Lesson Not
Found; otherwise the player renders the active lesson. A total function:
no exception escapes. -/
def renderCoursePlayer (courseId lessonId : Option String) : PlayerView :=
  match courseId with
  | none => .courseNotFound
  | some cid =>
    if cid = "" then .courseNotFound
    else
      match lookupCourse cid with
      | none => .courseNotFound
      | some lessons =>
        match resolveInitialLesson lessons lessonId with
        | none => .lessonNotFound
        | some lesson => .player lesson

/-- A posted comment:
`{ id: Date.now().toString(), user: 'Current User', timestamp: <now>, text }`.
Both the id and the timestamp derive from the current time, passed in as
`now`. -/
structure Comment where
  id : String
  user : String
  timestamp : Nat
  text : String
deriving DecidableEq, Repr

/-- The local component state of `CoursePlayer`: active lesson, active tab
(`'notes'` or `'comments'`), notes buffer, comment list, comment input
buffer. -/
structure PlayerState where
  activeLesson : Option Lesson
  activeTab : String
  notes : String
  comments : List Comment
  newComment : String
deriving DecidableEq, Repr

/-- `handlePostComment`: if the trimmed input is non-empty (truthy), append
one comment built from the current time and the trimmed input, then clear the
input buffer; otherwise do nothing. -/
def handlePostComment (st : PlayerState) (now : Nat) : PlayerState :=
  if jsTrim st.newComment ≠ "" then
    { st with
      comments := st.comments ++
        [ { id := toString now, user := "Current User",
            timestamp := now, text := jsTrim st.newComment } ],
      newComment := "" }
  else st

/-- `handleLessonComplete` on the held lesson copy:
`prev => ({ ...prev, isCompleted: !prev.isCompleted })` — the spread copies
every other field and the result is a fresh object. -/
def handleLessonComplete (lesson : Lesson) : Lesson :=
  { lesson with isCompleted := !lesson.isCompleted }

/-- The view together with the shared catalog it draws from, to state frame
properties of the completion toggle over the catalog. -/
structure PlayerWorld where
  catalog : List (String × List Lesson)
  state : PlayerState

/-- The completion toggle lifted to the world: it rebinds `activeLesson` to
the fresh flipped copy (the source guards against a missing active lesson by
returning early, so the toggle only ever runs with one present). -/
def toggleActiveLesson (w : PlayerWorld) : PlayerWorld :=
  { w with state := { w.state with activeLesson := w.state.activeLesson.map handleLessonComplete } }

/-- Navigating (away and back) to course `cid`, lesson `lid`: the effect
re-resolves the active lesson from the shared catalog, discarding the held
copy. -/
def navigateTo (w : PlayerWorld) (cid : String) (lid : Option String) : PlayerWorld :=
  { w with state := { w.state with
      activeLesson := resolveInitialLesson ((w.catalog.lookup cid).getD []) lid } }

/-! ### Theorems settling the claims -/

/-- C1: for every course in the static catalog, a supplied (non-empty) lesson
identifier resolves to the first lesson of the course's list with that id,
and an absent lesson identifier resolves to the first lesson of the list; in
particular `web-dev-101` with no lesson id resolves to `lesson-1`. -/
theorem lesson_resolution_spec :
    (∀ cid lessons lid, lookupCourse cid = some lessons → lid ≠ "" →
      resolveInitialLesson lessons (some lid) =
        lessons.find? (fun lesson => lesson.id = lid)) ∧
    (∀ cid lessons, lookupCourse cid = some lessons →
      resolveInitialLesson lessons none = lessons.head?) ∧
    (resolveInitialLesson ((lookupCourse "web-dev-101").getD []) none).map Lesson.id
      = some "lesson-1" := by
  refine ⟨?_, ?_, by decide⟩
  · intro cid lessons lid _ hne
    simp [resolveInitialLesson, hne]
  · intro cid lessons _
    rfl

/-- Witness for C1 at course `web-dev-101` and lesson id `lesson-2`. -/
theorem lesson_resolution_spec_witness :
    resolveInitialLesson webDev101Lessons (some "lesson-2") =
      webDev101Lessons.find? (fun lesson => lesson.id = "lesson-2") :=
  lesson_resolution_spec.1 "web-dev-101" webDev101Lessons "lesson-2" rfl (by decide)

/-- C2: an absent or unknown course identifier renders the terminal Course
Not Found view; a known course with a supplied lesson identifier matching no
lesson renders the terminal Lesson Not Found view. `renderCoursePlayer` is a
total function, so no exception is propagated. -/
theorem not_found_rendering :
    (∀ lid, renderCoursePlayer none lid = PlayerView.courseNotFound) ∧
    (∀ cid lid, lookupCourse cid = none →
      renderCoursePlayer (some cid) lid = PlayerView.courseNotFound) ∧
    (∀ cid lessons lid, lookupCourse cid = some lessons → lid ≠ "" →
      lessons.find? (fun lesson => lesson.id = lid) = none →
      renderCoursePlayer (some cid) (some lid) = PlayerView.lessonNotFound) := by
  refine ⟨fun _ => rfl, ?_, ?_⟩
  · intro cid lid h
    by_cases hc : cid = "" <;> simp [renderCoursePlayer, hc, h]
  · intro cid lessons lid h hne hfind
    have hc : cid ≠ "" := by
      intro hc
      rw [hc] at h
      have hnone : lookupCourse "" = none := by decide
      rw [hnone] at h
      exact Option.noConfusion h
    simp [renderCoursePlayer, hc, h, resolveInitialLesson, hne, hfind]

/-- Witness for C2 at an unknown course id and at a known course with an
unknown lesson id. -/
theorem not_found_rendering_witness :
    renderCoursePlayer (some "algebra-999") none = PlayerView.courseNotFound ∧
    renderCoursePlayer (some "web-dev-101") (some "lesson-99") = PlayerView.lessonNotFound :=
  ⟨not_found_rendering.2.1 "algebra-999" none (by decide),
   not_found_rendering.2.2 "web-dev-101" webDev101Lessons "lesson-99" rfl
     (by decide) (by decide)⟩

/-- C3: posting with a non-whitespace input appends exactly one comment whose
text is the trimmed input, with the time-derived id, the fixed author
`Current User` and the current timestamp, keeping every earlier comment;
posting a whitespace-only input appends nothing. -/
theorem post_comment_appends_trimmed (st : PlayerState) (now : Nat) :
    (jsTrim st.newComment ≠ "" →
      (handlePostComment st now).comments =
        st.comments ++
          [{ id := toString now, user := "Current User",
             timestamp := now, text := jsTrim st.newComment }]) ∧
    (jsTrim st.newComment = "" →
      (handlePostComment st now).comments = st.comments) := by
  constructor <;> intro h <;> simp [handlePostComment, h]

/-- Witness for C3: posting `" hello "` appends one comment with text
`"hello"`; posting `"   "` appends none. -/
theorem post_comment_appends_trimmed_witness :
    (handlePostComment
      { activeLesson := none, activeTab := "comments", notes := "",
        comments := [], newComment := " hello " } 42).comments =
      [{ id := "42", user := "Current User", timestamp := 42, text := "hello" }] ∧
    (handlePostComment
      { activeLesson := none, activeTab := "comments", notes := "",
        comments := [], newComment := "   " } 42).comments = [] :=
  ⟨((post_comment_appends_trimmed _ 42).1 (by decide)).trans (by decide),
   ((post_comment_appends_trimmed _ 42).2 (by decide)).trans rfl⟩

/-- C4: one completion toggle flips the completed flag exactly once, and the
toggle is an involution: two toggles restore the original lesson. -/
theorem lesson_complete_toggle_involutive (lesson : Lesson) :
    (handleLessonComplete lesson).isCompleted = !lesson.isCompleted ∧
    handleLessonComplete (handleLessonComplete lesson) = lesson := by
  refine ⟨rfl, ?_⟩
  cases lesson
  simp [handleLessonComplete]

/-- C5: the completion toggle changes only the held active-lesson copy: the
shared catalog is unchanged (every entry, every field), and navigating away
and back re-resolves from the catalog, so the flipped flag does not survive. -/
theorem toggle_preserves_catalog (w : PlayerWorld) (cid : String) (lid : Option String) :
    (toggleActiveLesson w).catalog = w.catalog ∧
    navigateTo (toggleActiveLesson w) cid lid = navigateTo w cid lid := by
  refine ⟨rfl, ?_⟩
  cases w with
  | mk catalog state =>
    cases state
    simp [navigateTo, toggleActiveLesson]

/-- Invariant: a listener absent from the registry, and never re-registered
along a trace, is invoked by no event of the trace and stays absent. -/
theorem schemeListener_absent_invariant (id : Nat) :
    ∀ (ops : List SchemeOp) (st : MQListeners),
      id ∉ st.listeners → (∀ m : Bool, SchemeOp.register m id ∉ ops) →
      id ∉ allInvoked st ops ∧ id ∉ (runSchemeOps st ops).listeners := by
  intro ops
  induction ops with
  | nil =>
    intro st h _
    exact ⟨by simp [allInvoked], by simpa [runSchemeOps] using h⟩
  | cons op ops ih =>
    intro st h hno
    have hnotail : ∀ m : Bool, SchemeOp.register m id ∉ ops := fun m hm =>
      hno m (List.mem_cons_of_mem _ hm)
    have hstep : id ∉ (schemeStep st op).listeners := by
      cases op with
      | register m j =>
        have hj : j ≠ id := fun hj =>
          hno m (by rw [hj]; exact List.mem_cons_self _ _)
        cases m
        all_goals
          simp [schemeStep, registerSchemeListener]
          exact ⟨h, fun he => hj he.symm⟩
      | deregister m j =>
        cases m
        all_goals
          simp [schemeStep, deregisterSchemeListener]
          exact fun hx => h (List.mem_of_mem_erase hx)
      | schemeChange m => exact h
    have hinv : id ∉ invokedBy st op := by
      cases op with
      | register m j => simp [invokedBy]
      | deregister m j => simp [invokedBy]
      | schemeChange m => exact h
    obtain ⟨h1, h2⟩ := ih (schemeStep st op) hstep hnotail
    refine ⟨?_, by simpa [runSchemeOps] using h2⟩
    simp only [allInvoked, List.mem_append]
    rintro (hx | hx)
    exacts [hinv hx, h1 hx]

/-- C6: a callback registered by `addColorSchemeListener` (through the modern
or the legacy path) and then de-registered by the returned function (through
the modern or the legacy path) is never invoked by any subsequent scheme
change event, across any trace that does not re-register that same listener
closure. -/
theorem deregistered_listener_never_invoked
    (modernAdd modernRemove : Bool) (st : MQListeners) (id : Nat)
    (ops : List SchemeOp)
    (hfresh : id ∉ st.listeners)
    (hnore : ∀ m : Bool, SchemeOp.register m id ∉ ops) :
    id ∉ allInvoked
        (deregisterSchemeListener modernRemove (registerSchemeListener modernAdd st id) id)
        ops ∧
    id ∉ (runSchemeOps
        (deregisterSchemeListener modernRemove (registerSchemeListener modernAdd st id) id)
        ops).listeners := by
  have hkey :
      (deregisterSchemeListener modernRemove
        (registerSchemeListener modernAdd st id) id).listeners = st.listeners := by
    cases modernAdd <;> cases modernRemove <;>
      simp [registerSchemeListener, deregisterSchemeListener,
        List.erase_append_right _ hfresh]
  exact schemeListener_absent_invariant id ops _ (hkey ▸ hfresh) hnore

/-- Witness for C6: listener 7 registered into registry `[3]` (modern path),
de-registered (legacy path), then two change events around an unrelated
registration: 7 is never invoked. -/
theorem deregistered_listener_never_invoked_witness :
    7 ∉ allInvoked
        (deregisterSchemeListener false (registerSchemeListener true ⟨[3]⟩ 7) 7)
        [SchemeOp.register true 9, SchemeOp.schemeChange true, SchemeOp.schemeChange false] ∧
    7 ∉ (runSchemeOps
        (deregisterSchemeListener false (registerSchemeListener true ⟨[3]⟩ 7) 7)
        [SchemeOp.register true 9, SchemeOp.schemeChange true,
          SchemeOp.schemeChange false]).listeners :=
  deregistered_listener_never_invoked true false ⟨[3]⟩ 7 _ (by decide) (by decide)

/-- Counterexample to C7 as stated: with the media-query facility
unavailable, `systemPrefersDarkMode()` returns `undefined` (the short-circuit
value of `&&`), which is not the boolean value `false`. -/
theorem systemPrefersDarkMode_missing_facility_not_false :
    systemPrefersDarkMode { matchMedia := none } ≠ JSValue.bool false := by
  simp [systemPrefersDarkMode]

/-- C7 (amended): when the media-query facility is unavailable,
`systemPrefersDarkMode()` returns `undefined`, a falsy safe default, rather
than failing; when available it returns the boolean result of the
`prefers-color-scheme: dark` query. -/
theorem systemPrefersDarkMode_safe_default (w : HostWindow) :
    (w.matchMedia = none →
      systemPrefersDarkMode w = JSValue.undef ∧
      jsTruthy (systemPrefersDarkMode w) = false) ∧
    (∀ mm, w.matchMedia = some mm →
      systemPrefersDarkMode w =
        JSValue.bool (mm "(prefers-color-scheme: dark)").mqMatches) := by
  constructor
  · intro h
    simp [systemPrefersDarkMode, h, jsTruthy]
  · intro mm h
    simp [systemPrefersDarkMode, h]

/-- Witness for amended C7 in a host without and with `matchMedia`. -/
theorem systemPrefersDarkMode_safe_default_witness :
    systemPrefersDarkMode { matchMedia := none } = JSValue.undef ∧
    systemPrefersDarkMode { matchMedia := some (fun _ => { mqMatches := true }) }
      = JSValue.bool true :=
  ⟨((systemPrefersDarkMode_safe_default _).1 rfl).1,
   (systemPrefersDarkMode_safe_default _).2 _ rfl⟩

/-- C8: `setCssVar` then `getCssVar` with the same name round-trips the
value, trimmed, for every store, name and value. -/
theorem set_get_cssVar_roundtrip (store : CssStore) (name value : String) :
    getCssVar (setCssVar store name value) name = jsTrim value := by
  simp [getCssVar, setCssVar]

/-- C9: `themeClass` returns the dark value exactly when the theme is
`'dark'`; every other theme value selects the light value. -/
theorem themeClass_spec (theme lightClass darkClass : String) :
    (theme = "dark" → themeClass theme lightClass darkClass = darkClass) ∧
    (theme ≠ "dark" → themeClass theme lightClass darkClass = lightClass) := by
  constructor <;> intro h <;> simp [themeClass, h]

/-- Witness for C9: `themeClass('dark','a','b') = 'b'` and
`themeClass('light','a','b') = 'a'`. -/
theorem themeClass_spec_witness :
    themeClass "dark" "a" "b" = "b" ∧ themeClass "light" "a" "b" = "a" :=
  ⟨(themeClass_spec "dark" "a" "b").1 rfl,
   (themeClass_spec "light" "a" "b").2 (by decide)⟩

/-- C10: a whitespace-only submission leaves the entire component state
unchanged, the input buffer included; a successful submission clears the
input buffer and leaves notes, active tab and active lesson unchanged. -/
theorem post_comment_frame (st : PlayerState) (now : Nat) :
    (jsTrim st.newComment = "" → handlePostComment st now = st) ∧
    (jsTrim st.newComment ≠ "" →
      (handlePostComment st now).newComment = "" ∧
      (handlePostComment st now).notes = st.notes ∧
      (handlePostComment st now).activeTab = st.activeTab ∧
      (handlePostComment st now).activeLesson = st.activeLesson) := by
  constructor <;> intro h <;> simp [handlePostComment, h]

/-- Witness for C10 on concrete states with a whitespace-only and a
non-empty input buffer. -/
theorem post_comment_frame_witness :
    handlePostComment
      { activeLesson := none, activeTab := "notes", notes := "n",
        comments := [], newComment := " \t " } 7 =
      { activeLesson := none, activeTab := "notes", notes := "n",
        comments := [], newComment := " \t " } ∧
    (handlePostComment
      { activeLesson := none, activeTab := "notes", notes := "n",
        comments := [], newComment := "hi" } 7).newComment = "" :=
  ⟨(post_comment_frame _ 7).1 (by decide),
   ((post_comment_frame _ 7).2 (by decide)).1⟩

end CourseEnrollment
